import Mathlib

/-!
Shallow embedding of the reconciliation core of the mongodb-kubernetes-operator
repository (pkg/controller/mongodb/mongodb_controller.go), together with
theorems settling the specification's claims about it.

The file first translates the Go source into Lean definitions (pure Go
functions become Lean functions; the reconciler's interaction with the
external store becomes a function of an explicit client record that also
emits a trace of the calls it attempts), then states and proves theorems.

Supporting packages of the repository (pkg/apis/mongodb/v1,
pkg/automationconfig, pkg/kube/configmap, pkg/kube/statefulset,
pkg/kube/resourcerequirements) are not part of the provided source tree;
definitions for them are modelled from the specification and say so in
their doc comments.
-/

namespace MongodbController

/-- Embeds `mdbv1.MongoDBSpec`: the desired-state fields read by the
controller (`mdb.Spec.Members`, `mdb.Spec.Version`), plus the optional
service name the spec's data model grants DesiredState. -/
structure MongoDBSpec where
  Members : Int
  Version : String
  Service : Option String
  deriving Repr, DecidableEq

/-- Embeds `mdbv1.MongoDB`: cluster identity (`Name`, `Namespace`, the Go
field `Namespace` kept verbatim) and the spec. -/
structure MongoDB where
  Name : String
  Namespace : String
  Spec : MongoDBSpec
  deriving Repr, DecidableEq

/-- Modelled from the spec: `mdbv1.MongoDB.ServiceName()` is not under the
provided source tree. Per §3/§4.2 the DesiredState carries an optional
service name, defaulted if absent; Scenario A fixes the default for name
`my-rs` as `my-rs-service`, i.e. the cluster name suffixed `-service`. -/
def MongoDB.ServiceName (mdb : MongoDB) : String :=
  match mdb.Spec.Service with
  | some s => s
  | none => mdb.Name ++ "-service"

/-- Modelled from the spec: `mdbv1.MongoDB.ConfigMapName()` is not under the
provided source tree. Per §3 the ConfigArtifact name is derived
deterministically from cluster identity; Scenario A fixes it for name
`my-rs` as `my-rs-config`, i.e. the cluster name suffixed `-config`. -/
def MongoDB.ConfigMapName (mdb : MongoDB) : String :=
  mdb.Name ++ "-config"

/-- Embeds the constant block of mongodb_controller.go. -/
def automationConfigKey : String := "automation-config"

/-- Embeds `agentName`. -/
def agentName : String := "mongodb-agent"

/-- Embeds `agentImageEnvVariable`. -/
def agentImageEnvVariable : String := "AGENT_IMAGE"

/-- Embeds `getDomain(service, namespace, clusterName string) string`:
substitutes "cluster.local" for an empty third argument and formats
`"%s.%s.svc.%s"`. -/
def getDomain (service ns clusterName : String) : String :=
  let clusterName := if clusterName = "" then "cluster.local" else clusterName
  service ++ "." ++ ns ++ ".svc." ++ clusterName

/-- Modelled from the spec: the `pkg/automationconfig` package is not under
the provided source tree. Per §3, the AutomationDocument holds a topology
kind, cluster name, fully-qualified domain, member count, database version,
and a config-generation counter; per §4.2 each is set verbatim by the
builder. -/
structure AutomationConfig where
  Topology : String
  Name : String
  Domain : String
  Members : Int
  MongoDBVersion : String
  Version : Int
  deriving Repr, DecidableEq

/-- Modelled from the spec: `automationconfig.ReplicaSetTopology`; §3 fixes
the topology kind to "replica-set" for this core. -/
def ReplicaSetTopology : String := "replica-set"

/-- Modelled from the spec: the fluent builder of `pkg/automationconfig`.
Each setter records its field; `Build` assembles the document (§4.2: pure,
no failure expected). -/
structure ACBuilder where
  Topology : String
  Name : String
  Domain : String
  Members : Int
  MongoDBVersion : String
  Version : Int
  deriving Repr, DecidableEq

/-- Modelled from the spec: `automationconfig.NewBuilder()`. -/
def ACNewBuilder : ACBuilder :=
  { Topology := "", Name := "", Domain := "", Members := 0
    MongoDBVersion := "", Version := 0 }

def ACBuilder.SetTopology (b : ACBuilder) (t : String) : ACBuilder :=
  { b with Topology := t }

def ACBuilder.SetName (b : ACBuilder) (n : String) : ACBuilder :=
  { b with Name := n }

def ACBuilder.SetDomain (b : ACBuilder) (d : String) : ACBuilder :=
  { b with Domain := d }

def ACBuilder.SetMembers (b : ACBuilder) (m : Int) : ACBuilder :=
  { b with Members := m }

def ACBuilder.SetMongoDBVersion (b : ACBuilder) (v : String) : ACBuilder :=
  { b with MongoDBVersion := v }

def ACBuilder.SetAutomationConfigVersion (b : ACBuilder) (v : Int) : ACBuilder :=
  { b with Version := v }

def ACBuilder.Build (b : ACBuilder) : AutomationConfig :=
  { Topology := b.Topology, Name := b.Name, Domain := b.Domain
    Members := b.Members, MongoDBVersion := b.MongoDBVersion
    Version := b.Version }

/-- Embeds `buildAutomationConfig(mdb mdbv1.MongoDB)`: note the third
argument of `getDomain` is `mdb.Name`, exactly as in the source. -/
def buildAutomationConfig (mdb : MongoDB) : AutomationConfig :=
  let domain := getDomain mdb.ServiceName mdb.Namespace mdb.Name
  (((((((ACNewBuilder.SetTopology
    ReplicaSetTopology).SetName
    mdb.Name).SetDomain
    domain).SetMembers
    mdb.Spec.Members).SetMongoDBVersion
    mdb.Spec.Version).SetAutomationConfigVersion
    1).Build)

/-- Modelled from the spec: `json.Marshal` applied to the automation
document. §4.3 requires a canonical structured text payload serializing the
document; the encoding is deterministic in the document's fields, and
encoding a well-formed document does not fail. -/
def marshalAutomationConfig (ac : AutomationConfig) : String :=
  "\x7b\"topology\":\"" ++ ac.Topology ++
    "\",\"name\":\"" ++ ac.Name ++
    "\",\"domain\":\"" ++ ac.Domain ++
    "\",\"members\":" ++ toString ac.Members ++
    ",\"mongoDBVersion\":\"" ++ ac.MongoDBVersion ++
    "\",\"version\":" ++ toString ac.Version ++ "\x7d"

/-- Modelled from the spec: `corev1.ConfigMap` as used here — a named,
namespaced key-value artifact (§3 ConfigArtifact). -/
structure ConfigMap where
  Name : String
  Namespace : String
  Data : List (String × String)
  deriving Repr, DecidableEq

/-- Modelled from the spec: the fluent builder of `pkg/kube/configmap`;
`SetField` appends one key-value entry. -/
structure CMBuilder where
  Name : String
  Namespace : String
  Data : List (String × String)
  deriving Repr, DecidableEq

/-- Modelled from the spec: `configmap.Builder()`. -/
def CMNewBuilder : CMBuilder :=
  { Name := "", Namespace := "", Data := [] }

def CMBuilder.SetName (b : CMBuilder) (n : String) : CMBuilder :=
  { b with Name := n }

def CMBuilder.SetNamespace (b : CMBuilder) (n : String) : CMBuilder :=
  { b with Namespace := n }

def CMBuilder.SetField (b : CMBuilder) (k v : String) : CMBuilder :=
  { b with Data := b.Data ++ [(k, v)] }

def CMBuilder.Build (b : CMBuilder) : ConfigMap :=
  { Name := b.Name, Namespace := b.Namespace, Data := b.Data }

/-- Errors surfaced by fallible builders and by the external store. -/
structure Err where
  msg : String
  deriving Repr, DecidableEq

/-- Embeds `buildAutomationConfigConfigMap(mdb)`: builds the automation
config, serializes it, and wraps it in a config map named
`mdb.ConfigMapName()` in `mdb.Namespace` with the single entry under
`automationConfigKey`. Serialization of a well-formed document never fails
(§4.3: defensive only), so the error branch is unreachable and the result
is always `ok`. -/
def buildAutomationConfigConfigMap (mdb : MongoDB) : Except Err ConfigMap :=
  let ac := buildAutomationConfig mdb
  let acBytes := marshalAutomationConfig ac
  .ok ((((CMNewBuilder.SetName
    mdb.ConfigMapName).SetNamespace
    mdb.Namespace).SetField
    automationConfigKey acBytes).Build)

/-- Modelled from the spec: `resourcerequirements.Defaults()` is not under
the provided source tree; §4.4 only fixes that the requirements are fixed
defaults, independent of the desired state. -/
structure ResourceRequirements where
  Limits : List (String × String)
  Requests : List (String × String)
  deriving Repr, DecidableEq

/-- Modelled from the spec: the fixed default resource requirements. -/
def resourcerequirementsDefaults : ResourceRequirements :=
  { Limits := [], Requests := [] }

/-- Embeds `corev1.Container` as used here. -/
structure Container where
  Name : String
  Image : String
  Resources : ResourceRequirements
  Command : List String
  deriving Repr, DecidableEq

/-- Embeds `corev1.PodTemplateSpec` as used here: object-meta labels and
the pod spec's container list. -/
structure PodTemplateSpec where
  Labels : List (String × String)
  Containers : List Container
  deriving Repr, DecidableEq

/-- Modelled from the spec: `appsv1.StatefulSet` as assembled by the
`pkg/kube/statefulset` builder — name, namespace, labels, replica count,
the selector's match-labels, and the pod template (§3
WorkloadDescriptor). -/
structure StatefulSet where
  Name : String
  Namespace : String
  Labels : List (String × String)
  Replicas : Int
  MatchLabels : List (String × String)
  Template : PodTemplateSpec
  deriving Repr, DecidableEq

/-- Modelled from the spec: the fluent builder of `pkg/kube/statefulset`. -/
structure STSBuilder where
  PodTemplateSpec : PodTemplateSpec
  Namespace : String
  Name : String
  Replicas : Int
  Labels : List (String × String)
  MatchLabels : List (String × String)
  deriving Repr, DecidableEq

/-- Modelled from the spec: `statefulset.NewBuilder()`. -/
def STSNewBuilder : STSBuilder :=
  { PodTemplateSpec := { Labels := [], Containers := [] }
    Namespace := "", Name := "", Replicas := 0
    Labels := [], MatchLabels := [] }

def STSBuilder.SetPodTemplateSpec (b : STSBuilder)
    (t : MongodbController.PodTemplateSpec) : STSBuilder :=
  { b with PodTemplateSpec := t }

def STSBuilder.SetNamespace (b : STSBuilder) (n : String) : STSBuilder :=
  { b with Namespace := n }

def STSBuilder.SetName (b : STSBuilder) (n : String) : STSBuilder :=
  { b with Name := n }

def STSBuilder.SetReplicas (b : STSBuilder) (r : Int) : STSBuilder :=
  { b with Replicas := r }

def STSBuilder.SetLabels (b : STSBuilder) (l : List (String × String)) : STSBuilder :=
  { b with Labels := l }

def STSBuilder.SetMatchLabels (b : STSBuilder) (l : List (String × String)) : STSBuilder :=
  { b with MatchLabels := l }

/-- Modelled from the spec: `Build` of the `pkg/kube/statefulset` builder is
not under the provided source tree. Per §4.4 and Scenario D it rejects an
invalid replica count with a `BuildError` (the DesiredState invariant is
member count ≥ 1, and members = 0 is invalid), and otherwise assembles the
descriptor from the set fields. -/
def STSBuilder.Build (b : STSBuilder) : Except Err StatefulSet :=
  if b.Replicas < 1 then
    .error { msg := "BuildError: invalid replica count" }
  else
    .ok { Name := b.Name, Namespace := b.Namespace, Labels := b.Labels
          Replicas := b.Replicas, MatchLabels := b.MatchLabels
          Template := b.PodTemplateSpec }

/-- The process-wide environment `os.Getenv` reads from: a map from
variable name to its value when set. -/
def Env : Type := String → Option String

/-- Embeds `os.Getenv`: the variable's value, or the empty string when
unset. -/
def osGetenv (env : Env) (name : String) : String :=
  match env name with
  | some v => v
  | none => ""

/-- Embeds `buildStatefulSet(mdb)`: the fixed placeholder labels, the single
agent container (fixed name, image from the environment variable, default
resource requirements, fixed command), the pod template, and the builder
chain, exactly as in the source. The environment is passed explicitly. -/
def buildStatefulSet (env : Env) (mdb : MongoDB) : Except Err StatefulSet :=
  let labels : List (String × String) := [("dummy", "label")]
  let agentContainer : Container :=
    { Name := agentName
      Image := osGetenv env agentImageEnvVariable
      Resources := resourcerequirementsDefaults
      Command := ["agent/mongodb-agent",
        "-cluster=/var/lib/automation/config/automation-config.json"] }
  let podSpecTemplate : PodTemplateSpec :=
    { Labels := labels, Containers := [agentContainer] }
  ((((((STSNewBuilder.SetPodTemplateSpec
    podSpecTemplate).SetNamespace
    mdb.Namespace).SetName
    mdb.Name).SetReplicas
    mdb.Spec.Members).SetLabels
    labels).SetMatchLabels
    labels).Build

/-- The objects the reconciler writes through `client.CreateOrUpdate`. -/
inductive KubeObject where
  | configMap (cm : ConfigMap)
  | statefulSet (sts : StatefulSet)
  deriving Repr, DecidableEq

/-- Outcome of the client's `Get` for the requested identity: the fetched
resource, a not-found error (`errors.IsNotFound`), or any other read
error. -/
inductive GetResult where
  | found (mdb : MongoDB)
  | notFound
  | readErr (e : Err)
  deriving Repr, DecidableEq

/-- The external store as seen by one reconciliation: the result of the
`Get` for the requested identity, and for each object an optional error
returned by `CreateOrUpdate` (none means the upsert succeeded). -/
structure Client where
  get : GetResult
  createOrUpdate : KubeObject → Option Err

/-- One observable call the reconciler makes during an invocation. The
build of the stateful set is recorded too, so that "the workload build was
never attempted" is expressible. -/
inductive Event where
  | getDesired
  | upsertConfig (cm : ConfigMap)
  | buildSts
  | upsertSts (sts : StatefulSet)
  deriving Repr, DecidableEq

/-- Embeds `reconcile.Result`: only the `Requeue` flag matters here
(`reconcile.Result{}` has it false). -/
structure ReconcileResult where
  Requeue : Bool
  deriving Repr, DecidableEq

/-- `reconcile.Result{}`. -/
def emptyResult : ReconcileResult := { Requeue := false }

/-- A reconciliation outcome: the returned `(reconcile.Result, error)` pair
together with the trace of calls attempted. -/
structure Outcome where
  result : ReconcileResult
  error : Option Err
  events : List Event
  deriving Repr, DecidableEq

/-- Per the source's comment on `Reconcile` (lines 76-77): the controller
requeues the request iff the returned error is non-nil or
`Result.Requeue` is true. -/
def Outcome.requeues (o : Outcome) : Bool :=
  o.result.Requeue || o.error.isSome

/-- Embeds `ensureAutomationConfig(mdb)`: build the config map (propagating
a build error), then upsert it (propagating an upsert error). Also returns
the trace of upsert calls attempted. -/
def ensureAutomationConfig (c : Client) (mdb : MongoDB) :
    Option Err × List Event :=
  match buildAutomationConfigConfigMap mdb with
  | .error e => (some e, [])
  | .ok cm =>
    match c.createOrUpdate (.configMap cm) with
    | some e => (some e, [.upsertConfig cm])
    | none => (none, [.upsertConfig cm])

/-- Embeds `Reconcile(request)`: fetch the MongoDB resource (not-found is a
clean exit without requeue; any other read error is returned, causing a
requeue), ensure the automation config (an error is returned, causing a
requeue), build the stateful set (an error exits with `Result{}, nil` — no
requeue), and upsert the stateful set (an error is returned, causing a
requeue). -/
def Reconcile (env : Env) (c : Client) : Outcome :=
  match c.get with
  | .notFound =>
    { result := emptyResult, error := none, events := [.getDesired] }
  | .readErr e =>
    { result := emptyResult, error := some e, events := [.getDesired] }
  | .found mdb =>
    match ensureAutomationConfig c mdb with
    | (some e, evs) =>
      { result := emptyResult, error := some e
        events := .getDesired :: evs }
    | (none, evs) =>
      match buildStatefulSet env mdb with
      | .error _ =>
        { result := emptyResult, error := none
          events := .getDesired :: evs ++ [.buildSts] }
      | .ok sts =>
        match c.createOrUpdate (.statefulSet sts) with
        | some e =>
          { result := emptyResult, error := some e
            events := .getDesired :: evs ++ [.buildSts, .upsertSts sts] }
        | none =>
          { result := emptyResult, error := none
            events := .getDesired :: evs ++ [.buildSts, .upsertSts sts] }

/-- Whether an event is an upsert call (a write against the external
store). -/
def Event.isUpsert : Event → Bool
  | .upsertConfig _ => true
  | .upsertSts _ => true
  | _ => false

/-- Whether an event is the workload-descriptor build step. -/
def Event.isBuildSts : Event → Bool
  | .buildSts => true
  | _ => false

/-! Concrete sample inputs used by witnesses and evaluations. -/

/-- Scenario A's desired state: name my-rs, namespace ns1, 3 members,
version 4.2.0, no service-name override. -/
def sampleMdb : MongoDB :=
  { Name := "my-rs", Namespace := "ns1"
    Spec := { Members := 3, Version := "4.2.0", Service := none } }

/-- Scenario D's desired state: the same identity with the invalid member
count 0. -/
def sampleMdb0 : MongoDB :=
  { Name := "my-rs", Namespace := "ns1"
    Spec := { Members := 0, Version := "4.2.0", Service := none } }

/-- An environment with no variables set. -/
def envEmpty : Env := fun _ => none

/-- A client whose reads yield `g` and whose every upsert succeeds. -/
def clientOK (g : GetResult) : Client :=
  { get := g, createOrUpdate := fun _ => none }

/-- A client that fetches `sampleMdb` but fails every config-map upsert. -/
def clientCMFail : Client :=
  { get := .found sampleMdb
    createOrUpdate := fun o =>
      match o with
      | .configMap _ => some { msg := "upsert failed" }
      | .statefulSet _ => none }

/-- The config map the pipeline produces for `sampleMdb`. -/
def sampleCm : ConfigMap :=
  { Name := "my-rs-config", Namespace := "ns1"
    Data := [(automationConfigKey,
      marshalAutomationConfig (buildAutomationConfig sampleMdb))] }

/-- The config map the pipeline produces for `sampleMdb0`. -/
def sampleCm0 : ConfigMap :=
  { Name := "my-rs-config", Namespace := "ns1"
    Data := [(automationConfigKey,
      marshalAutomationConfig (buildAutomationConfig sampleMdb0))] }

/-- The stateful set the pipeline produces for `sampleMdb` under
`envEmpty`. -/
def sampleSts : StatefulSet :=
  { Name := "my-rs", Namespace := "ns1", Labels := [("dummy", "label")]
    Replicas := 3, MatchLabels := [("dummy", "label")]
    Template :=
      { Labels := [("dummy", "label")]
        Containers :=
          [{ Name := "mongodb-agent"
             Image := ""
             Resources := resourcerequirementsDefaults
             Command := ["agent/mongodb-agent",
               "-cluster=/var/lib/automation/config/automation-config.json"] }] } }

/-- Follows the spec's words (§4.4): the expected workload descriptor for a
desired state — replica count from the member count, name/namespace from
the cluster identity, the fixed placeholder labels, and a single agent
container with fixed name, environment-supplied image, default resource
requirements, and the fixed launch command referencing the config
artifact's mount path. Stated for comparison with `buildStatefulSet`. -/
def specWorkloadDescriptor (env : Env) (mdb : MongoDB) : StatefulSet :=
  { Name := mdb.Name, Namespace := mdb.Namespace
    Labels := [("dummy", "label")]
    Replicas := mdb.Spec.Members
    MatchLabels := [("dummy", "label")]
    Template :=
      { Labels := [("dummy", "label")]
        Containers :=
          [{ Name := "mongodb-agent"
             Image := osGetenv env agentImageEnvVariable
             Resources := resourcerequirementsDefaults
             Command := ["agent/mongodb-agent",
               "-cluster=/var/lib/automation/config/automation-config.json"] }] } }

/-- C1: evaluation of the config-artifact build at Scenario A's desired
state. The artifact is named my-rs-config in ns1 with a single serialized
entry, topology is replica-set and the member count is 3, as claimed — but
the document's domain is "my-rs-service.ns1.svc.my-rs", not
"my-rs-service.ns1.svc.cluster.local": `buildAutomationConfig` passes
`mdb.Name` as `getDomain`'s cluster-domain argument. -/
theorem c1_configArtifact_scenarioA :
    buildAutomationConfigConfigMap sampleMdb = .ok sampleCm ∧
    sampleCm.Name = "my-rs-config" ∧
    sampleCm.Namespace = "ns1" ∧
    (buildAutomationConfig sampleMdb).Topology = "replica-set" ∧
    (buildAutomationConfig sampleMdb).Members = 3 ∧
    (buildAutomationConfig sampleMdb).Domain = "my-rs-service.ns1.svc.my-rs" ∧
    (buildAutomationConfig sampleMdb).Domain ≠
      "my-rs-service.ns1.svc.cluster.local" :=
  ⟨rfl, rfl, rfl, rfl, rfl, rfl, by decide⟩

/-- C2: when the stateful-set build fails for a fetched resource whose
config map was ensured, `Reconcile` returns `(Result{}, nil)` — no requeue,
no error — and never attempts the workload upsert; and for the invalid
member count 0 the build does fail with a BuildError. -/
theorem c2_build_failure_no_requeue (env : Env) (c : Client) (mdb : MongoDB)
    (cm : ConfigMap) (e : Err)
    (hget : c.get = .found mdb)
    (hcm : buildAutomationConfigConfigMap mdb = .ok cm)
    (hok : c.createOrUpdate (.configMap cm) = none)
    (hbuild : buildStatefulSet env mdb = .error e) :
    (Reconcile env c).result = emptyResult ∧
    (Reconcile env c).error = none ∧
    (Reconcile env c).requeues = false ∧
    (∀ sts, Event.upsertSts sts ∉ (Reconcile env c).events) ∧
    (mdb.Spec.Members = 0 →
      buildStatefulSet env mdb =
        .error { msg := "BuildError: invalid replica count" }) := by
  have hr : Reconcile env c =
      { result := emptyResult, error := none
        events := [.getDesired, .upsertConfig cm, .buildSts] } := by
    simp [Reconcile, hget, ensureAutomationConfig, hcm, hok, hbuild]
  refine ⟨by simp [hr], by simp [hr],
    by simp [hr, Outcome.requeues, emptyResult], by simp [hr], ?_⟩
  intro hm
  simp [buildStatefulSet, STSNewBuilder, STSBuilder.SetPodTemplateSpec,
    STSBuilder.SetNamespace, STSBuilder.SetName, STSBuilder.SetReplicas,
    STSBuilder.SetLabels, STSBuilder.SetMatchLabels, STSBuilder.Build, hm]

/-- C2 witness: the theorem applied at Scenario D's desired state (member
count 0), an all-successful client and the empty environment. -/
theorem c2_build_failure_no_requeue_witness :
    (clientOK (.found sampleMdb0)).get = .found sampleMdb0 ∧
    buildAutomationConfigConfigMap sampleMdb0 = .ok sampleCm0 ∧
    (clientOK (.found sampleMdb0)).createOrUpdate (.configMap sampleCm0) = none ∧
    buildStatefulSet envEmpty sampleMdb0 =
      .error { msg := "BuildError: invalid replica count" } ∧
    ((Reconcile envEmpty (clientOK (.found sampleMdb0))).result = emptyResult ∧
     (Reconcile envEmpty (clientOK (.found sampleMdb0))).error = none ∧
     (Reconcile envEmpty (clientOK (.found sampleMdb0))).requeues = false ∧
     (∀ sts, Event.upsertSts sts ∉
       (Reconcile envEmpty (clientOK (.found sampleMdb0))).events) ∧
     (sampleMdb0.Spec.Members = 0 →
       buildStatefulSet envEmpty sampleMdb0 =
         .error { msg := "BuildError: invalid replica count" })) :=
  ⟨rfl, rfl, rfl, rfl,
    c2_build_failure_no_requeue envEmpty (clientOK (.found sampleMdb0))
      sampleMdb0 sampleCm0 { msg := "BuildError: invalid replica count" }
      rfl rfl rfl rfl⟩

/-- C3: when the config-map upsert fails, `Reconcile` returns the error —
hence a requeue — and neither the stateful-set build nor its upsert is
attempted: the trace stops at the config upsert. -/
theorem c3_config_upsert_failure_halts (env : Env) (c : Client)
    (mdb : MongoDB) (cm : ConfigMap) (e : Err)
    (hget : c.get = .found mdb)
    (hcm : buildAutomationConfigConfigMap mdb = .ok cm)
    (hfail : c.createOrUpdate (.configMap cm) = some e) :
    (Reconcile env c).requeues = true ∧
    (Reconcile env c).error = some e ∧
    (Reconcile env c).events = [.getDesired, .upsertConfig cm] ∧
    Event.buildSts ∉ (Reconcile env c).events ∧
    (∀ sts, Event.upsertSts sts ∉ (Reconcile env c).events) := by
  have hr : Reconcile env c =
      { result := emptyResult, error := some e
        events := [.getDesired, .upsertConfig cm] } := by
    simp [Reconcile, hget, ensureAutomationConfig, hcm, hfail]
  simp [hr, Outcome.requeues, emptyResult]

/-- C3 witness: the theorem applied at Scenario A's desired state with a
client whose config-map upserts fail. -/
theorem c3_config_upsert_failure_halts_witness :
    clientCMFail.get = .found sampleMdb ∧
    buildAutomationConfigConfigMap sampleMdb = .ok sampleCm ∧
    clientCMFail.createOrUpdate (.configMap sampleCm) =
      some { msg := "upsert failed" } ∧
    ((Reconcile envEmpty clientCMFail).requeues = true ∧
     (Reconcile envEmpty clientCMFail).error = some { msg := "upsert failed" } ∧
     (Reconcile envEmpty clientCMFail).events =
       [.getDesired, .upsertConfig sampleCm] ∧
     Event.buildSts ∉ (Reconcile envEmpty clientCMFail).events ∧
     (∀ sts, Event.upsertSts sts ∉ (Reconcile envEmpty clientCMFail).events)) :=
  ⟨rfl, rfl, rfl,
    c3_config_upsert_failure_halts envEmpty clientCMFail sampleMdb sampleCm
      { msg := "upsert failed" } rfl rfl rfl⟩

/-- C4: a not-found read makes `Reconcile` return `(Result{}, nil)` — no
requeue — with no upsert call and no build attempted (the trace is just the
read); any other read error is returned, causing a requeue. -/
theorem c4_fetch_outcomes (env : Env) (c c' : Client) (e : Err)
    (h : c.get = .notFound) (h' : c'.get = .readErr e) :
    (Reconcile env c).error = none ∧
    (Reconcile env c).requeues = false ∧
    (Reconcile env c).events = [.getDesired] ∧
    (∀ ev ∈ (Reconcile env c).events,
      ev.isUpsert = false ∧ ev.isBuildSts = false) ∧
    (Reconcile env c').error = some e ∧
    (Reconcile env c').requeues = true := by
  simp [Reconcile, h, h', Outcome.requeues, emptyResult,
    Event.isUpsert, Event.isBuildSts]

/-- C4 witness: the theorem applied to a client with a missing record and a
client with a failing read. -/
theorem c4_fetch_outcomes_witness :
    (clientOK .notFound).get = .notFound ∧
    (clientOK (.readErr { msg := "read failed" })).get =
      .readErr { msg := "read failed" } ∧
    ((Reconcile envEmpty (clientOK .notFound)).error = none ∧
     (Reconcile envEmpty (clientOK .notFound)).requeues = false ∧
     (Reconcile envEmpty (clientOK .notFound)).events = [.getDesired] ∧
     (∀ ev ∈ (Reconcile envEmpty (clientOK .notFound)).events,
       ev.isUpsert = false ∧ ev.isBuildSts = false) ∧
     (Reconcile envEmpty (clientOK (.readErr { msg := "read failed" }))).error =
       some { msg := "read failed" } ∧
     (Reconcile envEmpty
       (clientOK (.readErr { msg := "read failed" }))).requeues = true) :=
  ⟨rfl, rfl,
    c4_fetch_outcomes envEmpty (clientOK .notFound)
      (clientOK (.readErr { msg := "read failed" }))
      { msg := "read failed" } rfl rfl⟩

/-- C5: with the process-wide environment unchanged, two invocations of the
builder pipeline on the same desired state produce identical ConfigArtifact
and WorkloadDescriptor payloads — both builders are functions of the
desired state and the environment alone, with no other input or hidden
state in the embedding. -/
theorem c5_builder_pipeline_deterministic (env : Env) (mdb : MongoDB) :
    buildAutomationConfigConfigMap mdb = buildAutomationConfigConfigMap mdb ∧
    (buildAutomationConfigConfigMap mdb).map (fun cm => cm.Data) =
      (buildAutomationConfigConfigMap mdb).map (fun cm => cm.Data) ∧
    buildStatefulSet env mdb = buildStatefulSet env mdb :=
  ⟨rfl, rfl, rfl⟩

/-- C6: the automation document copies the member count and the database
version verbatim from the desired state and fixes the topology to
replica-set. -/
theorem c6_automation_document_copies_fields (mdb : MongoDB) :
    (buildAutomationConfig mdb).Members = mdb.Spec.Members ∧
    (buildAutomationConfig mdb).MongoDBVersion = mdb.Spec.Version ∧
    (buildAutomationConfig mdb).Topology = ReplicaSetTopology :=
  ⟨rfl, rfl, rfl⟩

/-- C7: `getDomain` agrees on the empty cluster domain and on
"cluster.local", and in general formats
"serviceName.namespace.svc.clusterDomain" with "cluster.local" substituted
for an empty third argument; it is a total Lean function, hence pure with
no failure modes. -/
theorem c7_getDomain_substitutes_fixed_suffix (s n c : String) :
    getDomain s n "" = getDomain s n "cluster.local" ∧
    getDomain s n c =
      s ++ "." ++ n ++ ".svc." ++ (if c = "" then "cluster.local" else c) :=
  ⟨rfl, rfl⟩

/-- C8: across any sequence of reconciliations of one cluster identity, the
config-generation counter of a later automation document is at least that
of an earlier one — the builder always emits the fixed initial value 1. -/
theorem c8_config_version_monotone (seq : Nat → MongoDB) (i j : Nat)
    (h : i ≤ j) :
    (buildAutomationConfig (seq i)).Version ≤
      (buildAutomationConfig (seq j)).Version := by
  have hv : ∀ d, (buildAutomationConfig d).Version = 1 := fun d => rfl
  simp [hv]

/-- C8 witness: the theorem applied to the constant sequence at Scenario
A's desired state, at positions 0 ≤ 1. -/
theorem c8_config_version_monotone_witness :
    (0 : Nat) ≤ 1 ∧
    (buildAutomationConfig sampleMdb).Version ≤
      (buildAutomationConfig sampleMdb).Version :=
  ⟨Nat.zero_le 1,
    c8_config_version_monotone (fun _ => sampleMdb) 0 1 (Nat.zero_le 1)⟩

/-- C9: for a valid member count, the built stateful set is exactly the
spec-worded workload descriptor: replica count equal to the member count,
name and namespace from the identity, one container named "mongodb-agent"
with the environment-supplied image (empty when the variable is unset),
default resource requirements and the fixed command, and the fixed
placeholder labels independent of the desired state. -/
theorem c9_statefulset_fields (env : Env) (mdb : MongoDB)
    (h : 1 ≤ mdb.Spec.Members) :
    buildStatefulSet env mdb = .ok (specWorkloadDescriptor env mdb) ∧
    (specWorkloadDescriptor env mdb).Replicas = mdb.Spec.Members ∧
    (specWorkloadDescriptor env mdb).Name = mdb.Name ∧
    (specWorkloadDescriptor env mdb).Namespace = mdb.Namespace ∧
    (specWorkloadDescriptor env mdb).Template.Containers =
      [{ Name := "mongodb-agent"
         Image := osGetenv env agentImageEnvVariable
         Resources := resourcerequirementsDefaults
         Command := ["agent/mongodb-agent",
           "-cluster=/var/lib/automation/config/automation-config.json"] }] ∧
    (env agentImageEnvVariable = none →
      osGetenv env agentImageEnvVariable = "") ∧
    (specWorkloadDescriptor env mdb).Labels = [("dummy", "label")] := by
  refine ⟨?_, rfl, rfl, rfl, rfl, ?_, rfl⟩
  · have hlt : ¬ mdb.Spec.Members < 1 := by omega
    simp [buildStatefulSet, STSNewBuilder, STSBuilder.SetPodTemplateSpec,
      STSBuilder.SetNamespace, STSBuilder.SetName, STSBuilder.SetReplicas,
      STSBuilder.SetLabels, STSBuilder.SetMatchLabels, STSBuilder.Build, hlt,
      specWorkloadDescriptor, agentName]
  · intro hu
    simp [osGetenv, hu]

/-- C9 witness: the theorem applied at Scenario A's desired state and the
empty environment. -/
theorem c9_statefulset_fields_witness :
    (1 : Int) ≤ sampleMdb.Spec.Members ∧
    (buildStatefulSet envEmpty sampleMdb =
       .ok (specWorkloadDescriptor envEmpty sampleMdb) ∧
     (specWorkloadDescriptor envEmpty sampleMdb).Replicas =
       sampleMdb.Spec.Members ∧
     (specWorkloadDescriptor envEmpty sampleMdb).Name = sampleMdb.Name ∧
     (specWorkloadDescriptor envEmpty sampleMdb).Namespace =
       sampleMdb.Namespace ∧
     (specWorkloadDescriptor envEmpty sampleMdb).Template.Containers =
       [{ Name := "mongodb-agent"
          Image := osGetenv envEmpty agentImageEnvVariable
          Resources := resourcerequirementsDefaults
          Command := ["agent/mongodb-agent",
            "-cluster=/var/lib/automation/config/automation-config.json"] }] ∧
     (envEmpty agentImageEnvVariable = none →
       osGetenv envEmpty agentImageEnvVariable = "") ∧
     (specWorkloadDescriptor envEmpty sampleMdb).Labels =
       [("dummy", "label")]) :=
  ⟨by decide, c9_statefulset_fields envEmpty sampleMdb (by decide)⟩

/-- C10: any stateful set the builder returns carries the same map as its
labels, its selector's match-labels, and its pod template's labels, so the
selector matches the pods it templates. -/
theorem c10_selector_matches_template (env : Env) (mdb : MongoDB)
    (sts : StatefulSet)
    (h : buildStatefulSet env mdb = .ok sts) :
    sts.Labels = sts.MatchLabels ∧
    sts.MatchLabels = sts.Template.Labels := by
  simp only [buildStatefulSet, STSNewBuilder, STSBuilder.SetPodTemplateSpec,
    STSBuilder.SetNamespace, STSBuilder.SetName, STSBuilder.SetReplicas,
    STSBuilder.SetLabels, STSBuilder.SetMatchLabels, STSBuilder.Build] at h
  split at h
  · simp at h
  · injection h with h2
    subst h2
    exact ⟨rfl, rfl⟩

/-- C10 witness: the theorem applied at Scenario A's desired state, the
empty environment, and the concrete resulting stateful set. -/
theorem c10_selector_matches_template_witness :
    buildStatefulSet envEmpty sampleMdb = .ok sampleSts ∧
    (sampleSts.Labels = sampleSts.MatchLabels ∧
     sampleSts.MatchLabels = sampleSts.Template.Labels) :=
  ⟨rfl, c10_selector_matches_template envEmpty sampleMdb sampleSts rfl⟩

end MongodbController
